import Mathlib

/-!
Verification of the Saphira collection/retrieval engine.

This file gives a shallow embedding of the core of the Saphira repository:
the collection orchestrator (`src/core/collectionService.js`), the knowledge
store (save/load of knowledge-book partition files), the DuckDuckGo web-search
adapter (`src/core/sourceAdapters/duckDuckGoAdapter.js`), the search-result
cache (`src/core/searchService.js`), the `UserInterest` scheduling model
(`src/models/userInterest.js`) and the interactive start route
(`examples/routes/collection-routes.js`).

External effects (network calls, `uuidv4()`, wall-clock time, the file
system, `encodeURIComponent`, DOM parsing) are supplied as explicit
environment parameters; every function of the source that the claims touch
is translated structurally.  JavaScript `a || b` defaulting on strings is
modelled by `jsOr`/`jsOrS` (the empty string is falsy, like `undefined`).
-/

namespace Saphira

/-- JavaScript `a || b` for a possibly-absent string `a`: `none` models
`undefined`/`null`; the empty string is falsy as in JS. -/
def jsOr (a : Option String) (b : String) : String :=
  match a with
  | none => b
  | some s => if s = "" then b else s

/-- JavaScript `a || b` on two present strings (empty string is falsy). -/
def jsOrS (a b : String) : String :=
  if a = "" then b else a

/-- JavaScript truthiness of a possibly-absent string. -/
def jsTruthy (a : Option String) : Bool :=
  match a with
  | none => false
  | some s => s ≠ ""

/-- JavaScript `s.toLowerCase()` (character-wise lowering, which is what the
source names here need). -/
def jsToLower (s : String) : String :=
  String.mk (s.data.map Char.toLower)

/-- `s.startsWith(p)` over the character lists (kernel-computable). -/
def strStartsWith (s p : String) : Bool :=
  p.data.isPrefixOf s.data

/-- `s.endsWith(p)` over the character lists (kernel-computable). -/
def strEndsWith (s p : String) : Bool :=
  p.data.isSuffixOf s.data

/-! ## UserInterest (`src/models/userInterest.js`)

Timestamps are modelled in milliseconds (`Int`), matching the numeric value
of a JS `Date`; `lastCollectionDate = none` models `null` (never collected).
-/

/-- The fields of `UserInterest` that `isCollectionDue` reads. -/
structure UserInterest where
  enabled : Bool
  lastCollectionDate : Option Int
  collectFrequency : String
deriving Repr, DecidableEq

/-- `UserInterest.isCollectionDue`, lines 188-206 of the model file: if
disabled or never collected, return `enabled`; otherwise convert the elapsed
milliseconds to hours and compare against the frequency threshold with `>=`.
Arithmetic is modelled exactly over `ℚ` (JS numbers are wide enough here for
the float rounding never to cross the compared thresholds). -/
def isCollectionDue (i : UserInterest) (now : Int) : Bool :=
  if !i.enabled || i.lastCollectionDate.isNone then
    i.enabled
  else
    let elapsed : Int := now - i.lastCollectionDate.getD 0
    let elapsedHours : ℚ := (elapsed : ℚ) / (1000 * 60 * 60)
    if i.collectFrequency = "hourly" then decide (1 ≤ elapsedHours)
    else if i.collectFrequency = "daily" then decide (24 ≤ elapsedHours)
    else if i.collectFrequency = "weekly" then decide (168 ≤ elapsedHours)
    else false

/-! ## Search results and content items (web-search adapter data) -/

/-- One parsed DuckDuckGo search result: a (title, url, snippet) triple,
as produced by `DuckDuckGoAdapter.parseSearchResults`. -/
structure SearchResult where
  title : String
  url : String
  snippet : String
deriving Repr, DecidableEq

/-- A content item as produced by `DuckDuckGoAdapter.collectData`
(lines 98-105 / 113-120 of the adapter). -/
structure ContentItem where
  title : String
  sourceUrl : String
  summary : String
  content : String
  sourceName : String
  tags : List String
deriving Repr, DecidableEq

/-- The result of `fetchPage`: extracted body text and its 200-character
summary. -/
structure Page where
  content : String
  summary : String
deriving Repr, DecidableEq

/-! ## DuckDuckGo adapter (`src/core/sourceAdapters/duckDuckGoAdapter.js`) -/

/-- Adapter construction options that `collectData` reads. -/
structure DdgAdapter where
  maxResults : Nat
  allowedSources : List String
deriving Repr, DecidableEq

/-- External world seen by the adapter: the outcome of the HTTP search for a
query (`performSearch`, which either rejects or resolves to the parsed
result list), the outcome of fetching a page body by URL (`fetchPage`), and
URL-to-hostname extraction (`extractDomain`, `none` when `new URL` throws). -/
structure DdgEnv where
  search : String → Except String (List SearchResult)
  fetch : String → Except String Page
  domainOf : String → Option String
  containsSub : String → String → Bool

/-- Domain allow-list check of `collectData` lines 72-81: with an empty
`allowedSources` every domain passes without touching `domain`; otherwise
`domain.includes(allowedDomain)` is evaluated, and a `null` domain makes that
expression throw (caught by the per-result handler, dropping the result). -/
inductive AllowCheck where
  | allowed
  | notAllowed
  | threw
deriving Repr, DecidableEq

/-- Evaluate the allow-list check for one search result. -/
def allowCheck (a : DdgAdapter) (env : DdgEnv) (u : String) : AllowCheck :=
  if a.allowedSources = [] then .allowed
  else
    match env.domainOf u with
    | none => .threw
    | some d =>
      if a.allowedSources.any (fun ad => env.containsSub d ad) then .allowed
      else .notAllowed

/-- Build the content item for one search result whose page fetch succeeded
(adapter lines 98-105). -/
def ddgItemOk (env : DdgEnv) (terms : List String) (r : SearchResult)
    (page : Page) : ContentItem :=
  { title := jsOrS r.title "Untitled"
    sourceUrl := r.url
    summary := jsOrS r.snippet page.summary
    content := page.content
    sourceName := jsOr (env.domainOf r.url) "Unknown source"
    tags := terms ++ ["duckduckgo"] }

/-- Build the content item for one search result whose page fetch failed:
the result is kept with a placeholder body and an extra tag
(adapter lines 113-120). -/
def ddgItemErr (env : DdgEnv) (terms : List String) (r : SearchResult)
    (msg : String) : ContentItem :=
  { title := jsOrS r.title "Untitled"
    sourceUrl := r.url
    summary := jsOrS r.snippet "Content unavailable"
    content := "Unable to retrieve content: " ++ msg
    sourceName := jsOr (env.domainOf r.url) "Unknown source"
    tags := terms ++ ["duckduckgo", "fetch_error"] }

/-- Process one search result inside the `for` loop of `collectData`
(lines 64-126), assuming it is not a duplicate URL: returns `none` when the
result is skipped or dropped, `some item` when an item is pushed. -/
def ddgProcessOne (a : DdgAdapter) (env : DdgEnv) (terms : List String)
    (r : SearchResult) : Option ContentItem :=
  match allowCheck a env r.url with
  | .threw => none
  | .notAllowed => none
  | .allowed =>
    if !(strStartsWith r.url "http") then none
    else
      match env.fetch r.url with
      | .ok page => some (ddgItemOk env terms r page)
      | .error msg => some (ddgItemErr env terms r msg)

/-- The result-processing loop of `collectData` with the `processedUrls`
duplicate filter threaded through. -/
def ddgLoop (a : DdgAdapter) (env : DdgEnv) (terms : List String)
    (seen : List String) : List SearchResult → List ContentItem
  | [] => []
  | r :: rest =>
    if seen.contains r.url then ddgLoop a env terms seen rest
    else
      match ddgProcessOne a env terms r with
      | some item => item :: ddgLoop a env terms (r.url :: seen) rest
      | none => ddgLoop a env terms (r.url :: seen) rest

/-- Body of `DuckDuckGoAdapter.collectData` inside its outer `try` block
(lines 44-128): may fail when `performSearch` rejects. -/
def ddgCollectDataE (a : DdgAdapter) (env : DdgEnv) (terms : List String) :
    Except String (List ContentItem) :=
  let query := String.intercalate " " terms
  match env.search query with
  | .error e => .error e
  | .ok searchResults =>
    if searchResults = [] then .ok []
    else .ok (ddgLoop a env terms [] (searchResults.take a.maxResults))

/-- `DuckDuckGoAdapter.collectData` (lines 39-133): empty input short-circuits
to `[]`; the outer `catch` converts every internal error to `[]`. -/
def ddgCollectData (a : DdgAdapter) (env : DdgEnv) (terms : List String) :
    List ContentItem :=
  if terms = [] then []
  else
    match ddgCollectDataE a env terms with
    | .ok items => items
    | .error _ => []

/-! ## SearchService (`src/core/searchService.js`)

One cache slot per engine holding `{results, query, timestamp}`; the
timestamp is modelled in milliseconds (`none` models `null`). -/

/-- One cache slot of `SearchService.cache`. -/
structure CacheSlot where
  results : List ContentItem
  query : String
  timestamp : Option Int
deriving Repr, DecidableEq

/-- The parts of a `SearchService` instance that `search` reads and writes.
`adapterRun engine maxResults terms` abstracts
`this.adapters[engine].collectData(terms)` after `maxResults` was assigned
onto the adapter; `adapters` lists the engines that have an adapter. -/
structure SearchSvc where
  cacheTtl : Int
  defaultMaxResults : Nat
  cache : List (String × CacheSlot)
  adapters : List String
deriving Repr, DecidableEq

/-- Options object of `SearchService.search`. -/
structure SearchOpts where
  engine : Option String
  useCache : Option Bool
  maxResults : Option Nat
deriving Repr, DecidableEq

/-- Response object of `SearchService.search`. -/
structure SearchResp where
  results : List ContentItem
  query : String
  engine : String
  timestamp : Option Int
  fromCache : Bool
deriving Repr, DecidableEq

/-- Look up the cache slot of an engine (`this.cache[engine]`). -/
def cacheLookup (c : List (String × CacheSlot)) (engine : String) :
    Option CacheSlot :=
  match c.find? (fun p => p.1 == engine) with
  | some p => some p.2
  | none => none

/-- Overwrite the cache slot of an engine (assignment to `this.cache[engine]`). -/
def cacheStore (c : List (String × CacheSlot)) (engine : String)
    (slot : CacheSlot) : List (String × CacheSlot) :=
  (engine, slot) :: c.filter (fun p => p.1 != engine)

/-- The hit test of `SearchService.search` lines 92-96: the slot exists, its
`query` equals the requested query exactly, its `timestamp` is non-null and
`Date.now() - timestamp < cacheTtl * 1000` (strict). -/
def cacheHit (svc : SearchSvc) (engine query : String) (now : Int) : Bool :=
  match cacheLookup svc.cache engine with
  | none => false
  | some slot =>
    slot.query == query &&
      match slot.timestamp with
      | none => false
      | some ts => decide (now - ts < svc.cacheTtl * 1000)

/-- The effective `maxResults` (lines 89 and 112-117):
`options.maxResults || this.defaultMaxResults` with JS falsy defaulting
(`0` falls back to the default). -/
def svcMaxResults (svc : SearchSvc) (opts : SearchOpts) : Nat :=
  match opts.maxResults with
  | some m => if m = 0 then svc.defaultMaxResults else m
  | none => svc.defaultMaxResults

/-- The search terms handed to the adapter (line 121): the query split on
spaces with blank terms dropped. -/
def svcTerms (query : String) : List String :=
  (query.splitOn " ").filter (fun t => t.trim.length > 0)

/-- `SearchService.search` (lines 86-145).  `options.engine` defaulted to duckduckgo
follows JS falsy defaulting; `useCache = options.useCache !== false`.  On a
miss the adapter is invoked and the slot is overwritten; an unsupported
engine throws. -/
def svcSearch (adapterRun : String → Nat → List String → List ContentItem)
    (now : Int) (svc : SearchSvc) (query : String) (opts : SearchOpts) :
    Except String (SearchResp × SearchSvc) :=
  let engine := jsOr opts.engine "duckduckgo"
  let useCache : Bool := opts.useCache != some false
  if useCache && cacheHit svc engine query now then
    match cacheLookup svc.cache engine with
    | some slot =>
      .ok ({ results := slot.results, query := query, engine := engine
             timestamp := slot.timestamp, fromCache := true }, svc)
    | none => .error "unreachable: hit without slot"
  else if !(svc.adapters.contains engine) then
    .error ("Search engine \"" ++ engine ++ "\" not supported")
  else
    let results := adapterRun engine (svcMaxResults svc opts) (svcTerms query)
    let slot : CacheSlot := { results := results, query := query
                              timestamp := some now }
    .ok ({ results := results, query := query, engine := engine
           timestamp := some now, fromCache := false },
         { svc with cache := cacheStore svc.cache engine slot })

/-! ## Collection orchestrator (`src/core/collectionService.js`)

`uuidv4()` is modelled as a stream `uuid : Nat → String` consumed left to
right (a counter is threaded through the run); `new Date().toISOString()` is
modelled as a single environment constant `now` (time does not advance
within the model of one run); `encodeURIComponent` is supplied abstractly. -/

/-- A raw item as returned by an adapter: every field may be absent
(`none` models a missing/`undefined` property). -/
structure RawItem where
  id : Option String
  title : Option String
  summary : Option String
  content : Option String
  tags : Option (List String)
  createdAt : Option String
  date : Option String
  sourceName : Option String
  source : Option String
  sourceUrl : Option String
  url : Option String
deriving Repr, DecidableEq

/-- An entry of `this.state.results` after processing (the objects built at
lines 210-223, 323-336, 365-380 and 443-457 of `collectionService.js`). -/
structure Record where
  id : String
  title : String
  summary : String
  content : String
  tags : List String
  createdAt : String
  date : String
  sourceName : String
  source : String
  sourceUrl : String
  url : String
  isError : Bool
  collectionId : String
  searchResults : List SearchResult
deriving Repr, DecidableEq

/-- The collection configuration passed to `collectData`. -/
structure Config where
  sources : List String
  keywords : List String
  maxResults : Nat
  processingLevel : String
  saveToKnowledgeBooks : Bool
deriving Repr, DecidableEq

/-- The mutable collection state `this.state`. -/
structure RunState where
  running : Bool
  progress : Nat
  currentSource : String
  itemsCollected : Nat
  startTime : Option String
  processingLevel : String
  sources : List String
  keywords : List String
  maxResults : Nat
  results : List Record
deriving Repr, DecidableEq

/-- Outcome of one adapter invocation for a source, as observed at lines
187-205: the whole inner `try` (adapter resolution, instantiation, the
NewsAPI credential check and the `fetchContent`/`collectData` call) either
throws or yields a result list. -/
inductive AdapterOutcome where
  | throws (msg : String)
  | returns (items : List RawItem)
deriving Repr, DecidableEq

/-- Environment of one collection run: the per-source adapter outcome, the
DuckDuckGo fallback capabilities (the `collectData` retry on a fresh adapter and
the raw `performSearch`), whether the disk write in `saveCollectionResults`
fails, the clock, the uuid stream and `encodeURIComponent`. -/
structure RunEnv where
  outcome : String → AdapterOutcome
  ddgRetry : Except String (List RawItem)
  ddgSearch : Except String (List SearchResult)
  saveFails : Option String
  now : String
  uuid : Nat → String
  enc : String → String

/-- Effective keyword set of the main loop (lines 190-192):
non-empty keywords are filtered for blank entries, an empty list becomes
`["general"]`. -/
def effectiveKeywords (keywords : List String) : List String :=
  if keywords ≠ [] then keywords.filter (fun k => k ≠ "" && k.trim ≠ "")
  else ["general"]

/-- `CollectionService.createErrorItem` (lines 439-458). -/
def createErrorItem (source : String) (keywords : List String)
    (errorMessage cid now uid : String) : Record :=
  let keywordsStr := String.intercalate ", " keywords
  { id := uid
    title := "Error retrieving data from " ++ source
    summary := "Could not retrieve information from " ++ source ++
      " for keywords: " ++ keywordsStr
    content := errorMessage ++ "\n\nTried to collect data at: " ++ now ++
      "\nKeywords: " ++ keywordsStr ++
      "\n\nTo troubleshoot this issue:\n- Check your network connection\n- Verify API credentials if applicable\n- Try different keywords\n- Try again later"
    tags := ["error", source] ++ keywords
    createdAt := now
    date := now
    sourceName := source
    source := source
    sourceUrl := ""
    url := ""
    isError := true
    collectionId := cid
    searchResults := [] }

/-- Mapping of one successful adapter item in the main loop (lines 209-223). -/
def processedResult (kwUse : List String) (source cid now uid : String)
    (it : RawItem) : Record :=
  { id := jsOr it.id uid
    title := jsOr it.title ("Information from " ++ source)
    summary := jsOr it.summary
      (if jsTruthy it.content then (it.content.getD "").take 200 ++ "..."
       else "No summary available")
    content := jsOr it.content (jsOr it.summary "No content available")
    tags := it.tags.getD (kwUse ++ [source])
    createdAt := jsOr it.createdAt (jsOr it.date now)
    date := jsOr it.date (jsOr it.createdAt now)
    sourceName := jsOr it.sourceName (jsOr it.source source)
    source := jsOr it.source (jsOr it.sourceName source)
    sourceUrl := jsOr it.sourceUrl (jsOr it.url "")
    url := jsOr it.url (jsOr it.sourceUrl "")
    isError := false
    collectionId := cid
    searchResults := [] }

/-- Mapping of one item returned by the DuckDuckGo retry
(lines 322-336); the URL defaults fall back to a generic query URL. -/
def ddgRetryResult (kwUse : List String) (cid now queryUrl uid : String)
    (it : RawItem) : Record :=
  { id := jsOr it.id uid
    title := jsOr it.title "Search results from DuckDuckGo"
    summary := jsOr it.summary
      (if jsTruthy it.content then (it.content.getD "").take 200 ++ "..."
       else "No summary available")
    content := jsOr it.content (jsOr it.summary "No content available")
    tags := it.tags.getD (kwUse ++ ["duckduckgo"])
    createdAt := jsOr it.createdAt (jsOr it.date now)
    date := jsOr it.date (jsOr it.createdAt now)
    sourceName := jsOr it.sourceName "DuckDuckGo"
    source := jsOr it.source "duckduckgo"
    sourceUrl := jsOr it.sourceUrl (jsOr it.url queryUrl)
    url := jsOr it.url (jsOr it.sourceUrl queryUrl)
    isError := false
    collectionId := cid
    searchResults := [] }

/-- Map adapter items through a record builder, consuming one uuid for every
item without an `id` of its own (`item.id || uuidv4()`). -/
def processItems (uuid : Nat → String) (mk : String → RawItem → Record) :
    List RawItem → Nat → List Record × Nat
  | [], c => ([], c)
  | it :: rest, c =>
    let r := mk (uuid c) it
    let c' := if jsTruthy it.id then c else c + 1
    let p := processItems uuid mk rest c'
    (r :: p.1, p.2)

/-- The numbered markdown link list built at lines 360-362:
`"${index+1}. [${title}](${url})\n   ${snippet}"` joined by blank lines. -/
def linksContent (top : List SearchResult) : String :=
  String.intercalate "\n\n" (top.enum.map (fun p =>
    toString (p.1 + 1) ++ ". [" ++ p.2.title ++ "](" ++ p.2.url ++ ")\n   " ++
      p.2.snippet))

/-- The single aggregate record built from raw search results in Tier 3 of
the fallback (lines 365-380). -/
def searchOnlyItem (kwUse : List String) (cid now : String)
    (enc : String → String) (query : String)
    (searchResults : List SearchResult) (uid : String) : Record :=
  let topResults := searchResults.take 5
  let genericUrl := "https://duckduckgo.com/?q=" ++ enc query
  let theUrl := match topResults.head? with
    | some r => r.url
    | none => genericUrl
  { id := uid
    title := "DuckDuckGo search results for: " ++ query
    summary := "Found " ++ toString searchResults.length ++ " results for \"" ++
      query ++ "\". Here are the top " ++ toString topResults.length ++
      " matches:"
    content := "# Search results for \"" ++ query ++ "\"\n\n" ++
      linksContent topResults ++
      "\n\nThese links were found using DuckDuckGo search. Click on any link to view the actual page."
    tags := kwUse ++ ["duckduckgo", "search-results"]
    createdAt := now
    date := now
    sourceName := "DuckDuckGo Search"
    source := "duckduckgo"
    sourceUrl := theUrl
    url := theUrl
    isError := false
    collectionId := cid
    searchResults := topResults }

/-- The `keywordsToUse` of the fallback handler (lines 311-313): filter
blank keywords, defaulting to a generic topic when none were given. -/
def ddgKeywords (keywords : List String) : List String :=
  if keywords ≠ [] then keywords.filter (fun k => k ≠ "" && k.trim ≠ "")
  else ["artificial intelligence"]

/-- The query string of the fallback: the filtered keywords joined by
spaces (line 352). -/
def ddgQuery (keywords : List String) : String :=
  String.intercalate " " (ddgKeywords keywords)

/-- `CollectionService.handleDuckDuckGoFallback` (lines 297-433).
Tier 2 re-invokes the `collectData` capability of a fresh adapter instance
(`env.ddgRetry`); Tier 3 falls back to raw `performSearch` (`env.ddgSearch`).
Errors of either tier are caught and produce one error record; note the
outer catch passes the original `keywords` to `createErrorItem` while the
inner paths pass the filtered `keywordsToUse`. -/
def ddgFallback (env : RunEnv) (source : String) (keywords : List String)
    (cid : String) (c : Nat) : List Record × Nat :=
  let kwUse := ddgKeywords keywords
  let query := ddgQuery keywords
  match env.ddgRetry with
  | .error msg =>
    ([createErrorItem source keywords
        ("Error connecting to DuckDuckGo: " ++ msg) cid env.now (env.uuid c)],
     c + 1)
  | .ok items =>
    if items ≠ [] then
      let queryUrl := "https://duckduckgo.com/?q=" ++ env.enc query
      processItems env.uuid (ddgRetryResult kwUse cid env.now queryUrl) items c
    else
      match env.ddgSearch with
      | .error msg =>
        ([createErrorItem source kwUse
            ("Error during DuckDuckGo search: " ++ msg) cid env.now
            (env.uuid c)], c + 1)
      | .ok searchResults =>
        if searchResults ≠ [] then
          ([searchOnlyItem kwUse cid env.now env.enc query searchResults
              (env.uuid c)], c + 1)
        else
          ([createErrorItem source kwUse
              "DuckDuckGo search API returned no results. DuckDuckGo may be restricting automated queries."
              cid env.now (env.uuid c)], c + 1)

/-- The records contributed by one source of the main loop (lines 127-272):
a thrown adapter error or an empty non-web-search result yields one error
record; an empty DuckDuckGo result enters the fallback cascade; a non-empty
result list is mapped through `processedResult`. -/
def sourceStep (env : RunEnv) (cfg : Config) (cid : String) (source : String)
    (c : Nat) : List Record × Nat :=
  let kwUse := effectiveKeywords cfg.keywords
  match env.outcome source with
  | .throws msg =>
    ([createErrorItem source cfg.keywords
        ("Error using " ++ source ++ " adapter: " ++ msg) cid env.now
        (env.uuid c)], c + 1)
  | .returns items =>
    if items ≠ [] then
      processItems env.uuid (processedResult kwUse source cid env.now) items c
    else if jsToLower source = "duckduckgo" then
      ddgFallback env source cfg.keywords cid c
    else
      ([createErrorItem source cfg.keywords
          ("No results found from " ++ source ++ " for the specified keywords.")
          cid env.now (env.uuid c)], c + 1)

/-- The `for` loop over sources (lines 118-276), with `i` the loop index:
before each source the `currentSource` and `progress` fields of the state
are set (`progress = floor(i / total * 100)`); after it the contributed
records are appended and `itemsCollected` is reset to the new length. -/
def runSources (env : RunEnv) (cfg : Config) (cid : String) :
    List String → Nat → RunState → Nat → RunState × Nat
  | [], _, st, c => (st, c)
  | source :: rest, i, st, c =>
    let st1 := { st with currentSource := source
                         progress := i * 100 / cfg.sources.length }
    let step := sourceStep env cfg cid source c
    let newResults := st1.results ++ step.1
    let st2 := { st1 with results := newResults
                          itemsCollected := newResults.length }
    runSources env cfg cid rest (i + 1) st2 step.2

/-- The state reset at the top of `collectData` (lines 82-93). -/
def initRunState (env : RunEnv) (cfg : Config) : RunState :=
  { running := true
    progress := 0
    currentSource := "Initializing..."
    itemsCollected := 0
    startTime := some env.now
    processingLevel := cfg.processingLevel
    sources := cfg.sources
    keywords := cfg.keywords
    maxResults := cfg.maxResults
    results := [] }

/-- `CollectionService.collectData` (lines 80-291): reset the state, process
every source in array order, then save if requested — `saveCollectionResults`
rethrows a write failure (line 590) and `collectData` does not catch it, so
in that case the completion `setState` at lines 284-288 never runs.  Returns
the final state and either the collected results or the propagated error. -/
def collectData (env : RunEnv) (cfg : Config) (cid : String) :
    RunState × Except String (List Record) :=
  let st := (runSources env cfg cid cfg.sources 0 (initRunState env cfg) 0).1
  match cfg.saveToKnowledgeBooks, env.saveFails with
  | true, some msg => (st, .error msg)
  | _, _ =>
    let stDone := { st with running := false, progress := 100
                            currentSource := "Completed" }
    (stDone, .ok stDone.results)

/-- The record lists contributed by the sources, in array order, with the
uuid counter threaded through — used to state that the run never aborts
early. -/
def contribs (env : RunEnv) (cfg : Config) (cid : String) :
    List String → Nat → List (List Record)
  | [], _ => []
  | s :: rest, c =>
    (sourceStep env cfg cid s c).1 ::
      contribs env cfg cid rest (sourceStep env cfg cid s c).2

/-! ## Knowledge store (persistence part of `collectionService.js`)

The data directory is modelled as a list of `(filename, content)` pairs in
directory-listing order; `parseDate` abstracts `new Date(string)` used only
as a sort key. -/

/-- A stored knowledge book, the shape written by `saveCollectionResults`
(lines 530-543).  `createdAt` is `""` for books written by this code but may
be present in hand-written or legacy files (the load path consults it). -/
structure Book where
  id : String
  title : String
  summary : String
  content : String
  tags : List String
  date : String
  createdAt : String
  source : String
  sourceUrl : String
  url : String
  isError : Bool
  collectionId : String
  collectionDate : String
deriving Repr, DecidableEq

/-- What reading one data file can yield: an unreadable file, malformed
JSON, JSON that is not an array, or an array of books. -/
inductive FileContent where
  | inaccessible
  | corrupt
  | notArray
  | records (books : List Book)
deriving Repr, DecidableEq

/-- Partition-file filter (lines 491 and 604):
a name starting with `knowledge-books-` and ending with `.json`. -/
def isPartitionFile (name : String) : Bool :=
  strStartsWith name "knowledge-books-" && strEndsWith name ".json"

/-- The partition files of a directory listing, in listing order. -/
def partitionFiles (files : List (String × FileContent)) :
    List (String × FileContent) :=
  files.filter (fun f => isPartitionFile f.1)

/-- The array stored in a file, if it is readable and an array. -/
def arrayContent : FileContent → Option (List Book)
  | .records books => some books
  | _ => none

/-- Stable insertion into a list sorted descending by `key`: the new element
goes in front of the first element whose key is not larger.  (the V8 `Array.prototype.sort` is stable and the comparator is `dateB - dateA`.) -/
def insertDesc (key : Book → Int) (b : Book) : List Book → List Book
  | [] => [b]
  | x :: xs => if key x ≤ key b then b :: x :: xs else x :: insertDesc key b xs

/-- Stable sort, descending by `key` (`sort((a, b) => dateB - dateA)`). -/
def sortDesc (key : Book → Int) (l : List Book) : List Book :=
  l.foldr (insertDesc key) []

/-- Sort key of the save path (line 550-552): `new Date(a.date)` only. -/
def saveKey (parseDate : String → Int) (b : Book) : Int :=
  parseDate b.date

/-- Sort key of the load path (lines 652-654):
`new Date(a.date || a.createdAt || 0)`. -/
def loadKey (parseDate : String → Int) (b : Book) : Int :=
  if b.date ≠ "" then parseDate b.date
  else if b.createdAt ≠ "" then parseDate b.createdAt
  else 0

/-- The conversion of a run record into a stored book
(`saveCollectionResults` lines 530-543); the `collectionId` is overwritten
with the id of the run and the partition date stamped on. -/
def toBook (cid formattedDate : String) (item : Record) : Book :=
  { id := item.id
    title := item.title
    summary := item.summary
    content := item.content
    tags := item.tags
    date := jsOrS item.createdAt item.date
    createdAt := ""
    source := jsOrS item.sourceName item.source
    sourceUrl := jsOrS item.sourceUrl item.url
    url := jsOrS item.url item.sourceUrl
    isError := item.isError
    collectionId := cid
    collectionDate := formattedDate }

/-- The "existing knowledge books" computed by `saveCollectionResults`
(lines 486-527): the arrays of the partition files are concatenated as-is —
unreadable or non-array partitions contribute nothing — and then the legacy
books of the legacy main file are appended, but only those whose `id` does not already
occur among the partition books.  A `readdir` failure (`files = none`)
empties the whole computation, legacy file included. -/
def saveExistingBooks (files : Option (List (String × FileContent)))
    (legacy : Option FileContent) : List Book :=
  match files with
  | none => []
  | some fs =>
    let fromPartitions :=
      ((partitionFiles fs).filterMap (fun f => arrayContent f.2)).flatten
    let existingIds := fromPartitions.map Book.id
    let fromLegacy :=
      match legacy with
      | some (.records mainBooks) =>
        mainBooks.filter (fun b => !(existingIds.contains b.id))
      | _ => []
    fromPartitions ++ fromLegacy

/-- What `saveCollectionResults` writes on success. -/
structure SaveOutcome where
  partitionName : String
  partitionBooks : List Book
  mergedIndex : List Book
  historyItemCount : Nat
deriving Repr, DecidableEq

/-- `CollectionService.saveCollectionResults` (lines 464-592) on the
file-system snapshot `files`/`legacy`: convert the results of the run, append
them to the existing books, sort the union descending by `new Date(date)`,
and write the new partition (the books of this run only) plus the merged index. -/
def saveCollectionResults (parseDate : String → Int)
    (files : Option (List (String × FileContent))) (legacy : Option FileContent)
    (results : List Record) (cid formattedDate : String) : SaveOutcome :=
  let newBooks := results.map (toBook cid formattedDate)
  let allKnowledgeBooks := saveExistingBooks files legacy ++ newBooks
  { partitionName := "knowledge-books-" ++ formattedDate ++ ".json"
    partitionBooks := newBooks
    mergedIndex := sortDesc (saveKey parseDate) allKnowledgeBooks
    historyItemCount := results.length }

/-- The partition-merging loop of `loadKnowledgeBooks` (lines 611-648): each
readable array contributes the books whose `id` was not seen in an earlier
file; unreadable, corrupt and non-array files are skipped. -/
def loadLoop (allBooks : List Book) : List FileContent → List Book
  | [] => allBooks
  | fc :: rest =>
    match fc with
    | .records books =>
      let existingIds := allBooks.map Book.id
      let uniqueBooks := books.filter (fun b => !(existingIds.contains b.id))
      loadLoop (allBooks ++ uniqueBooks) rest
    | _ => loadLoop allBooks rest

/-- `CollectionService.loadKnowledgeBooks` (lines 597-671): when at least one
partition file exists, merge the partitions (first occurrence of an `id`
across files wins) and sort descending by date; only when no partition file
exists fall back to the legacy single file, returning `[]` when it is absent
or unreadable. -/
def loadKnowledgeBooks (parseDate : String → Int)
    (files : List (String × FileContent)) (legacy : Option FileContent) :
    List Book :=
  let parts := partitionFiles files
  if parts ≠ [] then
    sortDesc (loadKey parseDate) (loadLoop [] (parts.map (fun f => f.2)))
  else
    match legacy with
    | some (.records books) => books
    | _ => []

/-- The merge described by the spec for the load path: concatenate the
partition arrays, keeping a book only when its `id` did not occur in an
earlier file (first occurrence wins across files). -/
def crossFileDedup (seen : List String) : List (List Book) → List Book
  | [] => []
  | books :: rest =>
    let kept := books.filter (fun b => !(seen.contains b.id))
    kept ++ crossFileDedup (seen ++ books.map Book.id) rest

/-! ## Interactive start route (`examples/routes/collection-routes.js`)

A request-interleaving model of the `POST /start` handler (lines 51-93),
the `POST /stop` handler (lines 98-106) and run completion.  The start
handler is split at its real suspension point: the guard reads
`collectionState.running` synchronously (line 54), but the handler then
awaits `loadUserInterests()` (line 72) before `simulateCollection` finally
resets the state with `running := true`, so a second start request can run
its guard inside that window; `pending` counts handlers suspended there.
`active` counts collection runs started and not yet finished; the source
loop of a run never reads the `running` flag, so a stop request only flips
the flag while the run keeps executing. -/

/-- The process state of the interactive path: the shared collection state,
the number of start handlers suspended between their guard and the run
start, and the number of collection runs currently executing. -/
structure PathState where
  st : RunState
  pending : Nat
  active : Nat
deriving Repr, DecidableEq

/-- Events of the interactive orchestration path. -/
inductive Ev where
  | startCheck
  | startResume (env : RunEnv) (cfg : Config)
  | stopReq
  | runFinish

/-- One step of the interactive path.  `startCheck` is the guard of
`POST /start`: with `running` true the request redirects and is finished —
nothing is queued — otherwise the handler suspends at the `await`.
`startResume` resumes one suspended handler, which begins the run with the
`collectData` state reset (`running := true`) WITHOUT re-checking the flag,
exactly as the code does.  `stopReq` is `POST /stop`: it only clears the
flag and labels the state `Stopped`; the executing run is not interrupted.
`runFinish` is the completion update of one executing run. -/
def routeStep (p : PathState) : Ev → PathState
  | .startCheck =>
    if p.st.running then p
    else { p with pending := p.pending + 1 }
  | .startResume env cfg =>
    if p.pending > 0 then
      { st := initRunState env cfg, pending := p.pending - 1
        active := p.active + 1 }
    else p
  | .stopReq =>
    if p.st.running then
      { p with st := { p.st with running := false
                                 currentSource := "Stopped" } }
    else p
  | .runFinish =>
    if p.active > 0 then
      { st := { p.st with running := false, progress := 100
                          currentSource := "Completed" }
        pending := p.pending, active := p.active - 1 }
    else p

/-- The idle boot state of `gui-viewer-app.js` (lines 83-94). -/
def idleState : RunState :=
  { running := false, progress := 0, currentSource := "", itemsCollected := 0
    startTime := none, processingLevel := "basic", sources := []
    keywords := [], maxResults := 10, results := [] }

/-- The boot process state: idle, no suspended handlers, no active runs. -/
def pathInit : PathState :=
  { st := idleState, pending := 0, active := 0 }

/-- Run the interactive path over a sequence of events. -/
def routeRun (evs : List Ev) : PathState :=
  evs.foldl routeStep pathInit

/-- Composite actions of the sequential discipline: a start whose guard and
run start happen with nothing interleaved in between, and a run finishing;
stop requests do not occur. -/
inductive SeqEv where
  | start (env : RunEnv) (cfg : Config)
  | finish

/-- Expansion of a composite action into primitive events. -/
def expandSeqEv : SeqEv → List Ev
  | .start env cfg => [.startCheck, .startResume env cfg]
  | .finish => [.runFinish]

/-- The primitive event trace of a sequence of composite actions. -/
def seqTrace (sevs : List SeqEv) : List Ev :=
  (sevs.map expandSeqEv).flatten

/-- How the orchestrator sees an item returned by the DuckDuckGo adapter:
the adapter objects carry `title`, `sourceUrl`, `summary`, `content`,
`sourceName` and `tags`; every other property read by the orchestrator
(`id`, `createdAt`, `date`, `source`, `url`) is `undefined`. -/
def rawOfContentItem (it : ContentItem) : RawItem :=
  { id := none
    title := some it.title
    summary := some it.summary
    content := some it.content
    tags := some it.tags
    createdAt := none
    date := none
    sourceName := some it.sourceName
    source := none
    sourceUrl := some it.sourceUrl
    url := none }

/-! ## Concrete inputs used by witnesses and counterexamples -/

/-- A concrete uuid stream. -/
def exUuid : Nat → String := fun n => "uuid-" ++ toString n

/-- A concrete stand-in for `encodeURIComponent`. -/
def exEnc : String → String := fun s => s

/-- A raw adapter item with every field present except `id`. -/
def exRaw : RawItem :=
  { id := none, title := some "Quantum paper", summary := some "a summary"
    content := some "the body", tags := some ["quantum"]
    createdAt := some "2025-01-01", date := some "2025-01-01"
    sourceName := some "arXiv", source := some "arxiv"
    sourceUrl := some "https://arxiv.org/abs/1", url := some "https://arxiv.org/abs/1" }

/-- Environment of a run whose disk write fails. -/
def c1Env : RunEnv :=
  { outcome := fun _ => .returns [exRaw]
    ddgRetry := .ok []
    ddgSearch := .ok []
    saveFails := some "ENOSPC: no space left on device"
    now := "2025-01-02T00:00:00.000Z"
    uuid := exUuid
    enc := exEnc }

/-- A one-source run that requests persistence. -/
def c1Cfg : Config :=
  { sources := ["arxiv"], keywords := ["quantum"], maxResults := 10
    processingLevel := "basic", saveToKnowledgeBooks := true }

/-- Environment where the arxiv adapter throws and every other source
returns an empty list. -/
def c2Env : RunEnv :=
  { outcome := fun s => if s = "arxiv" then .throws "socket hang up"
                        else .returns []
    ddgRetry := .ok []
    ddgSearch := .ok []
    saveFails := none
    now := "2025-01-02T00:00:00.000Z"
    uuid := exUuid
    enc := exEnc }

/-- A two-source run without persistence. -/
def c2Cfg : Config :=
  { sources := ["arxiv", "wikipedia"], keywords := ["ai"], maxResults := 5
    processingLevel := "basic", saveToKnowledgeBooks := false }

/-- A numbered concrete search link. -/
def exLink (n : Nat) : SearchResult :=
  { title := "Title " ++ toString n
    url := "https://example" ++ toString n ++ ".org/page"
    snippet := "snippet " ++ toString n }

/-- Five search-only links for the Tier-3 scenario. -/
def c3Links : List SearchResult :=
  [exLink 1, exLink 2, exLink 3, exLink 4, exLink 5]

/-- Environment of scenario B: content collection empty, retry empty,
search-only returns five links. -/
def c3Env : RunEnv :=
  { outcome := fun _ => .returns []
    ddgRetry := .ok []
    ddgSearch := .ok c3Links
    saveFails := none
    now := "2025-01-02T00:00:00.000Z"
    uuid := exUuid
    enc := exEnc }

/-- A single web-search-source run. -/
def c3Cfg : Config :=
  { sources := ["duckduckgo"], keywords := ["ai"], maxResults := 5
    processingLevel := "basic", saveToKnowledgeBooks := false }

/-- A book with all fields blank, used as a base for examples. -/
def emptyBook : Book :=
  { id := "", title := "", summary := "", content := "", tags := []
    date := "", createdAt := "", source := "", sourceUrl := "", url := ""
    isError := false, collectionId := "", collectionDate := "" }

/-- The copy of record id `x` persisted by a first run. -/
def bookX1 : Book :=
  { emptyBook with id := "x", title := "first run copy", collectionId := "run1" }

/-- Data directory after the first run: one partition holding `bookX1`. -/
def c4Files : List (String × FileContent) :=
  [("knowledge-books-2025-01-01.json", .records [bookX1])]

/-- The second run collects a record with the same id `x`. -/
def recX2 : Record :=
  { id := "x", title := "second run copy", summary := "", content := ""
    tags := [], createdAt := "", date := "", sourceName := "", source := ""
    sourceUrl := "", url := "", isError := false, collectionId := "run2"
    searchResults := [] }

/-- Books for the load example. -/
def bookA : Book := { emptyBook with id := "a", date := "D1" }

/-- Second load-example book, with a later date. -/
def bookB : Book := { emptyBook with id := "b", date := "D2" }

/-- A different book that reuses id `a` in a later partition. -/
def bookA2 : Book := { emptyBook with id := "a", title := "dup", date := "D3" }

/-- Data directory for the load example: a good partition, a corrupt one,
and a later partition whose first book duplicates an id. -/
def c6Files : List (String × FileContent) :=
  [("knowledge-books-1.json", .records [bookA]),
   ("knowledge-books-2.json", .corrupt),
   ("knowledge-books-3.json", .records [bookA2, bookB])]

/-- A concrete date parser for the load example. -/
def c6ParseDate : String → Int := fun s => if s = "D2" then 5 else 0

/-- A cached content item for the search-cache example. -/
def c7Item : ContentItem :=
  { title := "t", sourceUrl := "https://e.org", summary := "s", content := "c"
    sourceName := "e.org", tags := ["x"] }

/-- A search service whose duckduckgo slot caches query `x` at time 0 with a
300-second TTL. -/
def c7Svc : SearchSvc :=
  { cacheTtl := 300, defaultMaxResults := 10
    cache := [("duckduckgo", { results := [c7Item], query := "x"
                               timestamp := some 0 })]
    adapters := ["duckduckgo"] }

/-- A concrete adapter invocation for the search-cache example. -/
def c7Run : String → Nat → List String → List ContentItem := fun _ _ _ => []

/-- Adapter options matching the orchestrator wiring (allow every domain). -/
def c9Adapter : DdgAdapter := { maxResults := 5, allowedSources := [] }

/-- A search result whose page fetch will fail. -/
def c9Result : SearchResult :=
  { title := "Example", url := "https://example.org/a", snippet := "snip" }

/-- Adapter environment where every page fetch times out. -/
def c9Env : DdgEnv :=
  { search := fun _ => .ok [c9Result]
    fetch := fun _ => .error "timeout of 10000ms exceeded"
    domainOf := fun _ => some "example.org"
    containsSub := fun _ _ => true }

/-- Adapter environment where every page fetch succeeds. -/
def c9EnvOk : DdgEnv :=
  { search := fun _ => .ok [c9Result]
    fetch := fun _ => .ok { content := "body", summary := "body" }
    domainOf := fun _ => some "example.org"
    containsSub := fun _ _ => true }

/-- Adapter environment where the search request itself is rejected. -/
def c10Env : DdgEnv :=
  { search := fun _ => .error "DuckDuckGo search failed with status: 403"
    fetch := fun _ => .error "unused"
    domainOf := fun _ => none
    containsSub := fun _ _ => false }

/-- Run environment wired so that the duckduckgo outcome is exactly what the
real adapter model returns under `c10Env`. -/
def c10RunEnv : RunEnv :=
  { outcome := fun s =>
      if s = "duckduckgo" then
        .returns ((ddgCollectData c9Adapter c10Env ["ai"]).map rawOfContentItem)
      else .returns [exRaw]
    ddgRetry := .ok []
    ddgSearch := .ok []
    saveFails := none
    now := "2025-01-02T00:00:00.000Z"
    uuid := exUuid
    enc := exEnc }

/-- An interest collected exactly at the daily threshold boundary. -/
def dailyInterest : UserInterest :=
  { enabled := true, lastCollectionDate := some 0, collectFrequency := "daily" }

/-! # Theorems

First some shared structural lemmas about the embedding, then one theorem
per claim (with witnesses and counterexamples where required). -/

/-- The source loop never changes the `running` flag. -/
theorem runSources_running (env : RunEnv) (cfg : Config) (cid : String) :
    ∀ (l : List String) (i : Nat) (st : RunState) (c : Nat),
    (runSources env cfg cid l i st c).1.running = st.running := by
  intro l
  induction l with
  | nil => intro i st c; rfl
  | cons s rest ih => intro i st c; exact ih (i + 1) _ _

/-- The final result list of the source loop is the starting list followed
by the per-source contributions, in order. -/
theorem runSources_results (env : RunEnv) (cfg : Config) (cid : String) :
    ∀ (l : List String) (i : Nat) (st : RunState) (c : Nat),
    (runSources env cfg cid l i st c).1.results =
      st.results ++ (contribs env cfg cid l c).flatten := by
  intro l
  induction l with
  | nil => intro i st c; simp [runSources, contribs]
  | cons s rest ih =>
    intro i st c
    show (runSources env cfg cid rest (i + 1) _ _).1.results = _
    rw [ih]
    simp [contribs, List.append_assoc]

/-- After any step of the source loop, `itemsCollected` equals the length
of the result list. -/
theorem runSources_itemsCollected (env : RunEnv) (cfg : Config) (cid : String) :
    ∀ (l : List String) (i : Nat) (st : RunState) (c : Nat),
    st.itemsCollected = st.results.length →
    (runSources env cfg cid l i st c).1.itemsCollected =
      (runSources env cfg cid l i st c).1.results.length := by
  intro l
  induction l with
  | nil => intro i st c h; exact h
  | cons s rest ih => intro i st c h; exact ih (i + 1) _ _ rfl

/-- The results held in the final state of `collectData` are exactly the
concatenated per-source contributions, whether or not the save failed. -/
theorem collectData_results (env : RunEnv) (cfg : Config) (cid : String) :
    (collectData env cfg cid).1.results =
      (contribs env cfg cid cfg.sources 0).flatten := by
  unfold collectData
  cases hs : cfg.saveToKnowledgeBooks <;> cases hf : env.saveFails <;>
    simp [runSources_results, initRunState]

/-- Inserting into a descending list permutes consing. -/
theorem insertDesc_perm (key : Book → Int) (b : Book) (l : List Book) :
    List.Perm (insertDesc key b l) (b :: l) := by
  induction l with
  | nil => exact List.Perm.refl _
  | cons x xs ih =>
    by_cases h : key x ≤ key b
    · simp [insertDesc, h]
    · simp only [insertDesc, if_neg h]
      exact (List.Perm.cons x ih).trans (List.Perm.swap b x xs)

/-- The stable descending sort is a permutation. -/
theorem sortDesc_perm (key : Book → Int) (l : List Book) :
    List.Perm (sortDesc key l) l := by
  induction l with
  | nil => exact List.Perm.refl _
  | cons x xs ih => exact (insertDesc_perm key x _).trans (List.Perm.cons x ih)

/-- Inserting preserves descending sortedness. -/
theorem insertDesc_pairwise (key : Book → Int) (b : Book) (l : List Book)
    (h : l.Pairwise (fun a b => key b ≤ key a)) :
    (insertDesc key b l).Pairwise (fun a b => key b ≤ key a) := by
  induction l with
  | nil => simp [insertDesc]
  | cons x xs ih =>
    rcases List.pairwise_cons.mp h with ⟨hx, hxs⟩
    by_cases hle : key x ≤ key b
    · simp only [insertDesc, if_pos hle]
      refine List.pairwise_cons.mpr ⟨?_, h⟩
      intro y hy
      rcases List.mem_cons.mp hy with rfl | hy'
      · exact hle
      · exact le_trans (hx y hy') hle
    · simp only [insertDesc, if_neg hle]
      refine List.pairwise_cons.mpr ⟨?_, ih hxs⟩
      intro y hy
      rcases List.mem_cons.mp ((insertDesc_perm key b xs).mem_iff.mp hy)
        with rfl | hy'
      · exact le_of_lt (lt_of_not_le hle)
      · exact hx y hy'

/-- The output of the stable sort is descending in the key. -/
theorem sortDesc_pairwise (key : Book → Int) (l : List Book) :
    (sortDesc key l).Pairwise (fun a b => key b ≤ key a) := by
  induction l with
  | nil => simp [sortDesc]
  | cons x xs ih => exact insertDesc_pairwise key x _ ih

/-- `contains` distributes over append. -/
theorem contains_append (l₁ l₂ : List String) (x : String) :
    (l₁ ++ l₂).contains x = (l₁.contains x || l₂.contains x) := by
  induction l₁ with
  | nil => simp
  | cons y ys ih => simp [List.contains_cons, ih, Bool.or_assoc]

/-- `contains` on strings agrees with membership. -/
theorem contains_eq_true_iff (l : List String) (x : String) :
    l.contains x = true ↔ x ∈ l := by
  simp [List.contains, List.elem_iff]

/-- The cross-file merge only depends on the membership of the seen set. -/
theorem crossFileDedup_congr (ls : List (List Book)) :
    ∀ (s₁ s₂ : List String), (∀ x, s₁.contains x = s₂.contains x) →
    crossFileDedup s₁ ls = crossFileDedup s₂ ls := by
  induction ls with
  | nil => intro s₁ s₂ _; rfl
  | cons books rest ih =>
    intro s₁ s₂ h
    simp only [crossFileDedup]
    rw [List.filter_congr (fun b _ => by rw [h b.id]),
      ih (s₁ ++ books.map Book.id) (s₂ ++ books.map Book.id)
        (fun x => by rw [contains_append, contains_append, h x])]

/-- The partition-merging loop of the load path computes the cross-file
first-occurrence-wins merge of the readable partition arrays. -/
theorem loadLoop_eq_crossFileDedup (contents : List FileContent) :
    ∀ acc : List Book,
    loadLoop acc contents =
      acc ++ crossFileDedup (acc.map Book.id) (contents.filterMap arrayContent) := by
  induction contents with
  | nil => intro acc; simp [loadLoop, crossFileDedup]
  | cons fc rest ih =>
    intro acc
    cases fc with
    | records books =>
      show loadLoop (acc ++ _) rest = _
      rw [ih]
      have hmem : ∀ x : String,
          (((acc ++ books.filter
              (fun b => !((acc.map Book.id).contains b.id))).map Book.id).contains x) =
          ((acc.map Book.id ++ books.map Book.id).contains x) := by
        intro x
        rw [List.map_append, contains_append, contains_append]
        cases hacc : (acc.map Book.id).contains x with
        | true => simp
        | false =>
          simp only [Bool.false_or]
          cases hb : (books.map Book.id).contains x with
          | true =>
            rcases List.mem_map.mp ((contains_eq_true_iff _ _).mp hb)
              with ⟨b, hbmem, rfl⟩
            apply (contains_eq_true_iff _ _).mpr
            apply List.mem_map.mpr
            refine ⟨b, List.mem_filter.mpr ⟨hbmem, ?_⟩, rfl⟩
            rw [hacc]
            rfl
          | false =>
            apply Bool.eq_false_iff.mpr
            intro hcon
            rcases List.mem_map.mp ((contains_eq_true_iff _ _).mp hcon)
              with ⟨b, hbmem, rfl⟩
            have hbooks := (List.mem_filter.mp hbmem).1
            exact Bool.eq_false_iff.mp hb
              ((contains_eq_true_iff _ _).mpr (List.mem_map.mpr ⟨b, hbooks, rfl⟩))
      rw [crossFileDedup_congr _ _ _ hmem]
      simp [crossFileDedup, List.append_assoc, List.filterMap_cons, arrayContent]
    | inaccessible =>
      show loadLoop acc rest = _
      rw [ih]
      simp [List.filterMap_cons, arrayContent]
    | corrupt =>
      show loadLoop acc rest = _
      rw [ih]
      simp [List.filterMap_cons, arrayContent]
    | notArray =>
      show loadLoop acc rest = _
      rw [ih]
      simp [List.filterMap_cons, arrayContent]

/-! ### C8 — interest scheduling thresholds -/

/-- C8, as stated, is refuted at the exact 24-hour boundary: a daily
interest last collected exactly 24 hours ago is reported due by the code,
although the elapsed time does not strictly exceed the 24-hour threshold
(the code compares with `>=`, not `>`). -/
theorem c8_counterexample :
    isCollectionDue dailyInterest 86400000 = true ∧
    ¬ (24 < ((86400000 - 0 : Int) : ℚ) / (1000 * 60 * 60)) := by
  constructor
  · simp [isCollectionDue, dailyInterest]
    norm_num
  · norm_num

/-- C8 (amended): `isCollectionDue` is false whenever `enabled` is false;
when enabled it is true if the interest was never collected, and otherwise
true exactly when the elapsed hours since the last collection are at least
(`≥`, not strictly greater than) the frequency threshold: 1 for hourly, 24
for daily, 168 for weekly. -/
theorem c8_collection_due_thresholds (i : UserInterest) (now : Int) :
    (i.enabled = false → isCollectionDue i now = false) ∧
    (i.enabled = true → i.lastCollectionDate = none →
      isCollectionDue i now = true) ∧
    (∀ t, i.enabled = true → i.lastCollectionDate = some t →
      i.collectFrequency = "hourly" →
      (isCollectionDue i now = true ↔
        1 ≤ ((now - t : Int) : ℚ) / (1000 * 60 * 60))) ∧
    (∀ t, i.enabled = true → i.lastCollectionDate = some t →
      i.collectFrequency = "daily" →
      (isCollectionDue i now = true ↔
        24 ≤ ((now - t : Int) : ℚ) / (1000 * 60 * 60))) ∧
    (∀ t, i.enabled = true → i.lastCollectionDate = some t →
      i.collectFrequency = "weekly" →
      (isCollectionDue i now = true ↔
        168 ≤ ((now - t : Int) : ℚ) / (1000 * 60 * 60))) := by
  refine ⟨?_, ?_, ?_, ?_, ?_⟩
  · intro h; simp [isCollectionDue, h]
  · intro h1 h2; simp [isCollectionDue, h1, h2]
  · intro t h1 h2 h3; simp [isCollectionDue, h1, h2, h3]
  · intro t h1 h2 h3; simp [isCollectionDue, h1, h2, h3]
  · intro t h1 h2 h3; simp [isCollectionDue, h1, h2, h3]

/-- C8 witness: a daily interest last collected 23 hours ago is not due and
one last collected 25 hours ago is due, via the amended theorem. -/
theorem c8_collection_due_thresholds_witness :
    isCollectionDue dailyInterest 82800000 = false ∧
    isCollectionDue dailyInterest 90000000 = true := by
  have h23 := (c8_collection_due_thresholds dailyInterest 82800000).2.2.2.1
    0 rfl rfl rfl
  have h25 := (c8_collection_due_thresholds dailyInterest 90000000).2.2.2.1
    0 rfl rfl rfl
  constructor
  · apply Bool.eq_false_iff.mpr
    intro hc
    have h := h23.mp hc
    norm_num at h
  · exact h25.mpr (by norm_num)

/-! ### C5 — mutual exclusion of runs on the interactive path -/

/-- C5 counterexample: two overlapping collection runs are reachable on the
interactive path, refuting the process-wide at-most-one-Running invariant.
Left trace: two start requests both run their guard before either resumed
handler has set `running := true` (the handler suspends at the `await`
between the check and the run start), so both pass and both runs begin.
Right trace: a stop request merely clears the flag while the first run
keeps executing, so a later start passes the guard and overlaps it.  Both
traces end with two collection runs executing at once. -/
theorem c5_counterexample :
    (routeRun [.startCheck, .startCheck, .startResume c2Env c2Cfg,
      .startResume c2Env c2Cfg]).active = 2 ∧
    (routeRun [.startCheck, .startResume c2Env c2Cfg, .stopReq,
      .startCheck, .startResume c2Env c2Cfg]).active = 2 := by
  constructor <;> rfl

/-- One composite action of the sequential discipline preserves the
coupling between the `running` flag, the absence of suspended handlers and
the number of executing runs. -/
theorem seqStep_inv (p : PathState) (sev : SeqEv)
    (h : p.pending = 0 ∧ (p.st.running = true ↔ p.active = 1) ∧ p.active ≤ 1) :
    ((expandSeqEv sev).foldl routeStep p).pending = 0 ∧
    (((expandSeqEv sev).foldl routeStep p).st.running = true ↔
      ((expandSeqEv sev).foldl routeStep p).active = 1) ∧
    ((expandSeqEv sev).foldl routeStep p).active ≤ 1 := by
  obtain ⟨hp, hiff, hle⟩ := h
  cases sev with
  | start env cfg =>
    by_cases hr : p.st.running = true
    · simp only [expandSeqEv, List.foldl_cons, List.foldl_nil]
      rw [show routeStep p .startCheck = p from by simp [routeStep, hr]]
      rw [show routeStep p (.startResume env cfg) = p from by
        simp [routeStep, hp]]
      exact ⟨hp, hiff, hle⟩
    · have hrf : p.st.running = false := Bool.eq_false_iff.mpr hr
      have ha : p.active = 0 := by
        rcases Nat.le_one_iff_eq_zero_or_eq_one.mp hle with h0 | h1
        · exact h0
        · exact absurd (hiff.mpr h1) hr
      simp only [expandSeqEv, List.foldl_cons, List.foldl_nil]
      rw [show routeStep p .startCheck = { p with pending := p.pending + 1 }
        from by simp [routeStep, hrf]]
      simp [routeStep, hp, ha, initRunState]
  | finish =>
    by_cases hact : p.active > 0
    · have h1 : p.active = 1 := Nat.le_antisymm hle hact
      simp only [expandSeqEv, List.foldl_cons, List.foldl_nil]
      simp [routeStep, hact, h1, hp]
    · have h0 : p.active = 0 := Nat.eq_zero_of_not_pos hact
      simp only [expandSeqEv, List.foldl_cons, List.foldl_nil]
      rw [show routeStep p .runFinish = p from by simp [routeStep, h0]]
      exact ⟨hp, hiff, hle⟩

/-- The coupling invariant holds along every sequential-discipline trace. -/
theorem seqFold_inv (sevs : List SeqEv) :
    ∀ p : PathState,
    (p.pending = 0 ∧ (p.st.running = true ↔ p.active = 1) ∧ p.active ≤ 1) →
    ((seqTrace sevs).foldl routeStep p).pending = 0 ∧
    (((seqTrace sevs).foldl routeStep p).st.running = true ↔
      ((seqTrace sevs).foldl routeStep p).active = 1) ∧
    ((seqTrace sevs).foldl routeStep p).active ≤ 1 := by
  induction sevs with
  | nil => intro p h; exact h
  | cons sev rest ih =>
    intro p h
    simp only [seqTrace, List.map_cons, List.flatten_cons, List.foldl_append]
    have hstep := seqStep_inv p sev h
    have := ih ((expandSeqEv sev).foldl routeStep p) hstep
    simpa [seqTrace] using this

/-- C5 (amended): a start request whose guard observes `running = true` is
rejected as a pure no-op redirect — shared state, suspended handlers and
executing runs are all unchanged, so no second run is started and nothing
is queued.  The process-wide at-most-one-run invariant however only
survives under the sequential discipline: along every trace of composite
actions in which each accepted start runs its guard and begins its run with
nothing interleaved in the suspension window and no stop request occurs, at
most one collection run is ever executing, and the `running` flag reports
exactly whether one is.  Outside that discipline overlapping runs are
reachable (see the counterexample). -/
theorem c5_guard_rejects_start (sevs : List SeqEv) :
    (∀ p : PathState, p.st.running = true → routeStep p .startCheck = p) ∧
    (routeRun (seqTrace sevs)).active ≤ 1 ∧
    ((routeRun (seqTrace sevs)).st.running = true ↔
      (routeRun (seqTrace sevs)).active = 1) ∧
    (routeRun (seqTrace sevs)).pending = 0 := by
  have hinv := seqFold_inv sevs pathInit
    (by simp [pathInit, idleState])
  exact ⟨fun p hr => by simp [routeStep, hr],
    hinv.2.2, hinv.2.1, hinv.1⟩

/-- C5 witness: after one well-separated accepted start the run is active
and a start request observing the running state is a no-op, and a
start-then-finish sequential trace never has more than one run in
flight. -/
theorem c5_guard_rejects_start_witness :
    routeStep (routeRun (seqTrace [.start c2Env c2Cfg])) .startCheck =
      routeRun (seqTrace [.start c2Env c2Cfg]) ∧
    (routeRun (seqTrace [.start c2Env c2Cfg, .finish])).active ≤ 1 := by
  constructor
  · exact (c5_guard_rejects_start [.start c2Env c2Cfg]).1
      (routeRun (seqTrace [.start c2Env c2Cfg])) rfl
  · exact (c5_guard_rejects_start [.start c2Env c2Cfg, .finish]).2.1

/-! ### C2 — per-source error isolation -/

/-- C2: a source whose adapter invocation throws, or which returns an empty
list while not being the web-search source, contributes exactly one error
record — carrying respectively the thrown message or the no-results
diagnostic, tagged `isError = true` — and the run never aborts early: the
final result list of `collectData` is the concatenation of every per-source
contribution in array order, whatever the individual outcomes were. -/
theorem c2_error_isolation (env : RunEnv) (cfg : Config) (cid s : String)
    (c : Nat) :
    (∀ msg, env.outcome s = .throws msg →
      (sourceStep env cfg cid s c).1 =
        [createErrorItem s cfg.keywords
          ("Error using " ++ s ++ " adapter: " ++ msg) cid env.now
          (env.uuid c)]) ∧
    (env.outcome s = .returns [] → jsToLower s ≠ "duckduckgo" →
      (sourceStep env cfg cid s c).1 =
        [createErrorItem s cfg.keywords
          ("No results found from " ++ s ++ " for the specified keywords.")
          cid env.now (env.uuid c)]) ∧
    (∀ kws msg uid, (createErrorItem s kws msg cid env.now uid).isError = true) ∧
    (collectData env cfg cid).1.results =
      (contribs env cfg cid cfg.sources 0).flatten := by
  refine ⟨?_, ?_, ?_, collectData_results env cfg cid⟩
  · intro msg h
    simp [sourceStep, h]
  · intro h hs
    simp [sourceStep, h, hs]
  · intro kws msg uid
    rfl

/-- C2 witness: the arxiv source throwing produces exactly one error record
carrying the message, and the wikipedia source is still processed. -/
theorem c2_error_isolation_witness :
    (sourceStep c2Env c2Cfg "cid2" "arxiv" 0).1 =
      [createErrorItem "arxiv" c2Cfg.keywords
        ("Error using " ++ "arxiv" ++ " adapter: " ++ "socket hang up")
        "cid2" c2Env.now (c2Env.uuid 0)] ∧
    (collectData c2Env c2Cfg "cid2").1.results =
      (contribs c2Env c2Cfg "cid2" c2Cfg.sources 0).flatten := by
  refine ⟨?_, (c2_error_isolation c2Env c2Cfg "cid2" "arxiv" 0).2.2.2⟩
  exact (c2_error_isolation c2Env c2Cfg "cid2" "arxiv" 0).1
    "socket hang up" rfl

/-! ### C3 — web-search Tier-3 search-only fallback -/

/-- Taking the first five elements does not change the head. -/
theorem head?_take_five (l : List SearchResult) : (l.take 5).head? = l.head? := by
  cases l <;> rfl

/-- C3: in the fallback cascade, when the Tier-2 retry yields no items the
search-only capability decides the outcome — at least one (title, url,
snippet) triple gives exactly one aggregate record (not an error) whose body
is the formatted list of the top five links and whose `sourceUrl` is the URL
of the first link, while an empty answer gives exactly one error record
carrying the restricting-automated-queries diagnostic. -/
theorem c3_search_only_tier (env : RunEnv) (cfg : Config) (cid s : String)
    (c : Nat) (hout : env.outcome s = .returns [])
    (hddg : jsToLower s = "duckduckgo") (hretry : env.ddgRetry = .ok []) :
    (∀ srs, env.ddgSearch = .ok srs → srs ≠ [] →
      (sourceStep env cfg cid s c).1 =
        [searchOnlyItem (ddgKeywords cfg.keywords) cid env.now env.enc
          (ddgQuery cfg.keywords) srs (env.uuid c)] ∧
      (searchOnlyItem (ddgKeywords cfg.keywords) cid env.now env.enc
          (ddgQuery cfg.keywords) srs (env.uuid c)).content =
        "# Search results for \"" ++ ddgQuery cfg.keywords ++ "\"\n\n" ++
          linksContent (srs.take 5) ++
          "\n\nThese links were found using DuckDuckGo search. Click on any link to view the actual page." ∧
      (searchOnlyItem (ddgKeywords cfg.keywords) cid env.now env.enc
          (ddgQuery cfg.keywords) srs (env.uuid c)).isError = false ∧
      (∀ r, srs.head? = some r →
        (searchOnlyItem (ddgKeywords cfg.keywords) cid env.now env.enc
          (ddgQuery cfg.keywords) srs (env.uuid c)).sourceUrl = r.url)) ∧
    (env.ddgSearch = .ok [] →
      (sourceStep env cfg cid s c).1 =
        [createErrorItem s (ddgKeywords cfg.keywords)
          "DuckDuckGo search API returned no results. DuckDuckGo may be restricting automated queries."
          cid env.now (env.uuid c)]) := by
  constructor
  · intro srs hs hne
    refine ⟨?_, rfl, rfl, ?_⟩
    · simp [sourceStep, hout, hddg, ddgFallback, hretry, hs, hne]
    · intro r hr
      simp only [searchOnlyItem]
      rw [head?_take_five, hr]
  · intro hs
    simp [sourceStep, hout, hddg, ddgFallback, hretry, hs]

/-- C3 witness: scenario B — content collection empty, retry empty, five
search-only links — produces exactly the one aggregate record, whose
`sourceUrl` is the URL of the first link. -/
theorem c3_search_only_tier_witness :
    (sourceStep c3Env c3Cfg "cid3" "duckduckgo" 0).1 =
      [searchOnlyItem (ddgKeywords c3Cfg.keywords) "cid3" c3Env.now c3Env.enc
        (ddgQuery c3Cfg.keywords) c3Links (c3Env.uuid 0)] ∧
    (searchOnlyItem (ddgKeywords c3Cfg.keywords) "cid3" c3Env.now c3Env.enc
        (ddgQuery c3Cfg.keywords) c3Links (c3Env.uuid 0)).sourceUrl =
      (exLink 1).url := by
  have h := (c3_search_only_tier c3Env c3Cfg "cid3" "duckduckgo" 0
    rfl rfl rfl).1 c3Links rfl (by simp [c3Links])
  exact ⟨h.1, h.2.2.2 (exLink 1) rfl⟩

/-! ### C1 — persistence failure during saveRun -/

/-- C1 counterexample: with persistence requested and the disk write
failing, the run is NOT still marked complete — `running` stays `true` and
`currentSource` stays on the last source instead of `Completed` — and the
failure propagates out of `collectData` instead of being only reported. -/
theorem c1_counterexample :
    (collectData c1Env c1Cfg "cid1").1.running = true ∧
    (collectData c1Env c1Cfg "cid1").1.currentSource = "arxiv" ∧
    (collectData c1Env c1Cfg "cid1").2 =
      .error "ENOSPC: no space left on device" := by
  refine ⟨?_, ?_, ?_⟩ <;> rfl

/-- C1 (amended): when persistence is requested and the disk write fails
during `saveCollectionResults`, the error is logged and rethrown out of
`collectData`; the completion update never runs, so the run is left with
`running = true` and is not marked complete, while the in-memory run
counters are indeed not rolled back — the state still holds every per-source
contribution and `itemsCollected` equals the length of the result list. -/
theorem c1_save_failure_propagates (env : RunEnv) (cfg : Config)
    (cid msg : String) (hsave : cfg.saveToKnowledgeBooks = true)
    (hfail : env.saveFails = some msg) :
    (collectData env cfg cid).2 = .error msg ∧
    (collectData env cfg cid).1.running = true ∧
    (collectData env cfg cid).1.results =
      (contribs env cfg cid cfg.sources 0).flatten ∧
    (collectData env cfg cid).1.itemsCollected =
      (collectData env cfg cid).1.results.length := by
  refine ⟨?_, ?_, collectData_results env cfg cid, ?_⟩
  · unfold collectData
    rw [hsave, hfail]
  · unfold collectData
    rw [hsave, hfail]
    exact runSources_running env cfg cid cfg.sources 0 (initRunState env cfg) 0
  · unfold collectData
    rw [hsave, hfail]
    exact runSources_itemsCollected env cfg cid cfg.sources 0
      (initRunState env cfg) 0 rfl

/-- C1 witness: the amended theorem applied to the concrete failing run. -/
theorem c1_save_failure_propagates_witness :
    (collectData c1Env c1Cfg "cidw1").2 =
      .error "ENOSPC: no space left on device" ∧
    (collectData c1Env c1Cfg "cidw1").1.running = true :=
  ⟨(c1_save_failure_propagates c1Env c1Cfg "cidw1"
      "ENOSPC: no space left on device" rfl rfl).1,
   (c1_save_failure_propagates c1Env c1Cfg "cidw1"
      "ENOSPC: no space left on device" rfl rfl).2.1⟩

/-! ### C10 — the web-search adapter never throws -/

/-- C10: the adapter `collectData` model is total — empty keyword lists
short-circuit to `[]` and every internal error (in particular a rejected
search request) is caught by the outer handler and converted to `[]` — so
the orchestrator cannot distinguish a web-search failure from an empty
result: with the real adapter wired in as the outcome of the web-search
source, an empty answer is always routed into the fallback cascade and
never into the thrown-error branch. -/
theorem c10_adapter_never_throws (a : DdgAdapter) (env : DdgEnv)
    (terms : List String) (renv : RunEnv) (cfg : Config) (cid s : String)
    (c : Nat) :
    ddgCollectData a env [] = [] ∧
    (∀ e, ddgCollectDataE a env terms = .error e →
      ddgCollectData a env terms = []) ∧
    (∀ e, env.search (String.intercalate " " terms) = .error e →
      ddgCollectData a env terms = []) ∧
    (renv.outcome s =
        .returns ((ddgCollectData a env terms).map rawOfContentItem) →
      jsToLower s = "duckduckgo" → ddgCollectData a env terms = [] →
      sourceStep renv cfg cid s c = ddgFallback renv s cfg.keywords cid c) := by
  refine ⟨rfl, ?_, ?_, ?_⟩
  · intro e h
    by_cases ht : terms = []
    · simp [ddgCollectData, ht]
    · simp [ddgCollectData, ht, h]
  · intro e h
    by_cases ht : terms = []
    · simp [ddgCollectData, ht]
    · have he : ddgCollectDataE a env terms = .error e := by
        simp only [ddgCollectDataE]
        rw [h]
      simp [ddgCollectData, ht, he]
  · intro hout hddg hempty
    rw [hempty] at hout
    simp only [List.map_nil] at hout
    simp [sourceStep, hout, hddg]

/-- C10 witness: a rejected search request makes the adapter return `[]`,
and the orchestrator then routes the web-search source into the fallback
cascade. -/
theorem c10_adapter_never_throws_witness :
    ddgCollectData c9Adapter c10Env ["ai"] = [] ∧
    sourceStep c10RunEnv c3Cfg "cidX" "duckduckgo" 0 =
      ddgFallback c10RunEnv "duckduckgo" c3Cfg.keywords "cidX" 0 := by
  have h := c10_adapter_never_throws c9Adapter c10Env ["ai"] c10RunEnv c3Cfg
    "cidX" "duckduckgo" 0
  have hempty : ddgCollectData c9Adapter c10Env ["ai"] = [] :=
    h.2.2.1 "DuckDuckGo search failed with status: 403" rfl
  refine ⟨hempty, h.2.2.2 ?_ rfl hempty⟩
  rw [hempty]
  rfl

/-! ### C9 — per-result fetch failures never drop a result -/

/-- Whether a search result is kept does not depend on the fetch outcome. -/
theorem ddgProcessOne_fetch_isSome (a : DdgAdapter) (env : DdgEnv)
    (terms : List String) (r : SearchResult)
    (f g : String → Except String Page) :
    (ddgProcessOne a { env with fetch := f } terms r).isSome =
      (ddgProcessOne a { env with fetch := g } terms r).isSome := by
  unfold ddgProcessOne
  rw [show allowCheck a { env with fetch := f } r.url =
        allowCheck a { env with fetch := g } r.url from rfl]
  cases allowCheck a { env with fetch := g } r.url with
  | threw => rfl
  | notAllowed => rfl
  | allowed =>
    by_cases hsw : strStartsWith r.url "http" = true
    · simp only [hsw]
      cases f r.url <;> cases g r.url <;> rfl
    · simp [hsw]

/-- The number of items kept by the result loop does not depend on the
fetch outcomes. -/
theorem ddgLoop_length_fetch (a : DdgAdapter) (env : DdgEnv)
    (terms : List String) (f g : String → Except String Page) :
    ∀ (srs : List SearchResult) (seen : List String),
    (ddgLoop a { env with fetch := f } terms seen srs).length =
      (ddgLoop a { env with fetch := g } terms seen srs).length := by
  intro srs
  induction srs with
  | nil => intro seen; rfl
  | cons r rest ih =>
    intro seen
    simp only [ddgLoop]
    by_cases hseen : seen.contains r.url = true
    · simp only [hseen, if_true]
      exact ih seen
    · simp only [Bool.not_eq_true] at hseen
      simp only [hseen, Bool.false_eq_true, if_false]
      have hsome := ddgProcessOne_fetch_isSome a env terms r f g
      cases hf : ddgProcessOne a { env with fetch := f } terms r with
      | none =>
        rw [hf] at hsome
        cases hg : ddgProcessOne a { env with fetch := g } terms r with
        | none => simp only [hg]; exact ih (r.url :: seen)
        | some item => rw [hg] at hsome; simp at hsome
      | some item =>
        rw [hf] at hsome
        cases hg : ddgProcessOne a { env with fetch := g } terms r with
        | none => rw [hg] at hsome; simp at hsome
        | some item2 =>
          simp only [hg, List.length_cons]
          rw [ih (r.url :: seen)]

/-- C9: a failure while fetching or extracting a page body never drops the
search result — a result that passed the duplicate, domain and URL filters
is kept with its title, URL and snippet, a placeholder body naming the
failure and an extra `fetch_error` tag — and consequently the number of
items returned by the adapter does not depend on the fetch outcomes at
all. -/
theorem c9_fetch_failure_keeps_result (a : DdgAdapter) (env : DdgEnv)
    (terms : List String) (r : SearchResult) :
    (∀ msg, env.fetch r.url = .error msg →
      allowCheck a env r.url = .allowed →
      strStartsWith r.url "http" = true →
      ddgProcessOne a env terms r = some (ddgItemErr env terms r msg) ∧
      (ddgItemErr env terms r msg).title = jsOrS r.title "Untitled" ∧
      (ddgItemErr env terms r msg).sourceUrl = r.url ∧
      (ddgItemErr env terms r msg).summary =
        jsOrS r.snippet "Content unavailable" ∧
      (ddgItemErr env terms r msg).content =
        "Unable to retrieve content: " ++ msg ∧
      (ddgItemErr env terms r msg).tags =
        terms ++ ["duckduckgo", "fetch_error"]) ∧
    (∀ f g : String → Except String Page,
      (ddgCollectData a { env with fetch := f } terms).length =
        (ddgCollectData a { env with fetch := g } terms).length) := by
  constructor
  · intro msg hmsg hallow hsw
    refine ⟨?_, rfl, rfl, rfl, rfl, rfl⟩
    unfold ddgProcessOne
    rw [hallow, hsw, hmsg]
    rfl
  · intro f g
    by_cases ht : terms = []
    · simp [ddgCollectData, ht]
    · unfold ddgCollectData ddgCollectDataE
      simp only [ht, if_false]
      rw [show ({ env with fetch := f } : DdgEnv).search = env.search from rfl,
        show ({ env with fetch := g } : DdgEnv).search = env.search from rfl]
      cases hs : env.search (String.intercalate " " terms) with
      | error e => rfl
      | ok srs =>
        by_cases hsrs : srs = []
        · simp [hsrs]
        · simp only [hsrs, if_false]
          exact ddgLoop_length_fetch a env terms f g (srs.take a.maxResults) []

/-- C9 witness: the concrete fetch-failure environment keeps the result with
the placeholder body and the extra tag, and the item count matches the one
of the all-fetches-succeed environment. -/
theorem c9_fetch_failure_keeps_result_witness :
    ddgProcessOne c9Adapter c9Env ["k"] c9Result =
      some (ddgItemErr c9Env ["k"] c9Result "timeout of 10000ms exceeded") ∧
    (ddgItemErr c9Env ["k"] c9Result "timeout of 10000ms exceeded").tags =
      ["k"] ++ ["duckduckgo", "fetch_error"] ∧
    (ddgCollectData c9Adapter
        { c9Env with fetch := fun _ => .error "timeout of 10000ms exceeded" }
        ["k"]).length =
      (ddgCollectData c9Adapter
        { c9Env with fetch := fun _ => .ok { content := "body", summary := "body" } }
        ["k"]).length := by
  have h := c9_fetch_failure_keeps_result c9Adapter c9Env ["k"] c9Result
  have h1 := h.1 "timeout of 10000ms exceeded" rfl rfl rfl
  exact ⟨h1.1, h1.2.2.2.2.2,
    h.2 (fun _ => .error "timeout of 10000ms exceeded")
      (fun _ => .ok { content := "body", summary := "body" })⟩

/-! ### C7 — cache hit iff exact fresh query -/

/-- C7: with caching enabled and an engine whose slot and adapter exist, a
search is served from the cache exactly when the cached query equals the
requested query (string equality, no normalization) and the slot timestamp
is strictly fresher than the TTL; a hit returns the cached results and
leaves the service untouched, while a miss re-invokes the adapter and
unconditionally overwrites the slot of the engine with the new results,
query and timestamp; the returned `fromCache` flag is true exactly on a
hit. -/
theorem c7_cache_exact_hit
    (adapterRun : String → Nat → List String → List ContentItem)
    (now : Int) (svc : SearchSvc) (query : String) (opts : SearchOpts)
    (engine : String) (slot : CacheSlot)
    (heng : jsOr opts.engine "duckduckgo" = engine)
    (hslot : cacheLookup svc.cache engine = some slot)
    (hadapter : svc.adapters.contains engine = true)
    (huse : opts.useCache ≠ some false) :
    ∃ resp svc2, svcSearch adapterRun now svc query opts = .ok (resp, svc2) ∧
      (resp.fromCache = true ↔ (slot.query = query ∧
        ∃ ts, slot.timestamp = some ts ∧ now - ts < svc.cacheTtl * 1000)) ∧
      (resp.fromCache = true → resp.results = slot.results ∧ svc2 = svc) ∧
      (resp.fromCache = false →
        resp.results =
          adapterRun engine (svcMaxResults svc opts) (svcTerms query) ∧
        cacheLookup svc2.cache engine =
          some { results := resp.results, query := query
                 timestamp := some now }) := by
  have huse' : (opts.useCache != some false) = true := bne_iff_ne.mpr huse
  by_cases hhit : cacheHit svc engine query now = true
  · refine ⟨{ results := slot.results, query := query, engine := engine
              timestamp := slot.timestamp, fromCache := true }, svc, ?_, ?_, ?_, ?_⟩
    · simp only [svcSearch, heng, huse', hhit, Bool.and_self, if_true, hslot]
    · simp only [true_iff]
      have hc := hhit
      simp only [cacheHit, hslot] at hc
      rcases Bool.and_eq_true_iff.mp hc with ⟨hq, hts⟩
      refine ⟨(beq_iff_eq.mp hq), ?_⟩
      cases hts' : slot.timestamp with
      | none => rw [hts'] at hts; cases hts
      | some ts =>
        rw [hts'] at hts
        exact ⟨ts, rfl, of_decide_eq_true hts⟩
    · intro _
      exact ⟨rfl, rfl⟩
    · intro h
      cases h
  · refine ⟨{ results := adapterRun engine (svcMaxResults svc opts) (svcTerms query)
              query := query, engine := engine
              timestamp := some now, fromCache := false },
      { svc with
        cache := (cacheStore svc.cache engine { results := adapterRun engine (svcMaxResults svc opts) (svcTerms query), query := query, timestamp := some now }) }, ?_, ?_, ?_, ?_⟩
    · have hhitf : cacheHit svc engine query now = false :=
        Bool.eq_false_iff.mpr hhit
      simp only [svcSearch, heng, huse', hhitf, Bool.and_false, Bool.false_eq_true,
        if_false, hadapter, Bool.not_true, svcMaxResults, svcTerms]
    · simp only [Bool.false_eq_true, false_iff]
      rintro ⟨hq, ts, hts, hlt⟩
      apply hhit
      simp only [cacheHit, hslot, hts, hq]
      simp [hlt]
    · intro h
      cases h
    · intro _
      refine ⟨rfl, ?_⟩
      simp [cacheLookup, cacheStore]

/-- C7 witness: a repeat of the cached query within the TTL is served from
the cache; after the TTL has elapsed the same query misses, the adapter is
re-invoked and the slot is overwritten with a fresh timestamp. -/
theorem c7_cache_exact_hit_witness :
    (∃ resp svc2, svcSearch c7Run 1000 c7Svc "x" ⟨none, none, none⟩ =
        .ok (resp, svc2) ∧ resp.fromCache = true) ∧
    (∃ resp svc2, svcSearch c7Run 400000 c7Svc "x" ⟨none, none, none⟩ =
        .ok (resp, svc2) ∧ resp.fromCache = false ∧
        cacheLookup svc2.cache "duckduckgo" =
          some { results := resp.results, query := "x"
                 timestamp := some 400000 }) := by
  constructor
  · obtain ⟨resp, svc2, heq, hiff, _, _⟩ :=
      c7_cache_exact_hit c7Run 1000 c7Svc "x" ⟨none, none, none⟩ "duckduckgo"
        { results := [c7Item], query := "x", timestamp := some 0 }
        rfl rfl rfl (by simp)
    exact ⟨resp, svc2, heq, hiff.mpr ⟨rfl, 0, rfl, by norm_num [c7Svc]⟩⟩
  · obtain ⟨resp, svc2, heq, hiff, _, hmiss⟩ :=
      c7_cache_exact_hit c7Run 400000 c7Svc "x" ⟨none, none, none⟩ "duckduckgo"
        { results := [c7Item], query := "x", timestamp := some 0 }
        rfl rfl rfl (by simp)
    have hfc : resp.fromCache = false := by
      apply Bool.eq_false_iff.mpr
      intro hc
      rcases hiff.mp hc with ⟨_, ts, hts, hlt⟩
      cases hts
      norm_num [c7Svc] at hlt
    exact ⟨resp, svc2, heq, hfc, (hmiss hfc).2⟩

/-! ### C4 — the save-path merge does not deduplicate across partitions -/

/-- C4 counterexample: saving a second run whose record reuses id `x` while
a partition from a first run already holds a record with id `x` writes a
merged index containing BOTH occurrences — the written ids are
`["x", "x"]` and are not duplicate-free — refuting first-occurrence-wins
deduplication on the save path. -/
theorem c4_counterexample :
    ((saveCollectionResults (fun _ => 0) (some c4Files) none [recX2] "run2"
        "2025-01-02").mergedIndex.map Book.id) = ["x", "x"] ∧
    ¬ (((saveCollectionResults (fun _ => 0) (some c4Files) none [recX2] "run2"
        "2025-01-02").mergedIndex.map Book.id).Nodup) := by
  constructor
  · rfl
  · decide

/-- C4 (amended): during saveRun the existing merged index is computed by
scanning the partition files in directory order and concatenating their
records WITHOUT deduplication between partitions; only books of the legacy
single index file are deduplicated (skipped when their id already occurs
among the partition records).  The written merged index is a permutation of
partitions ++ filtered legacy ++ the new books of the run, sorted descending
by parsed date, and the new partition file holds exactly the new books of
the run; consequently, when two saved runs contain records sharing an id the
merged index retains both occurrences. -/
theorem c4_merge_keeps_partition_duplicates (parseDate : String → Int)
    (fs : List (String × FileContent)) (legacyBooks : List Book)
    (results : List Record) (cid fdate : String) :
    (saveCollectionResults parseDate (some fs) (some (.records legacyBooks))
        results cid fdate).mergedIndex.Perm
      ((((partitionFiles fs).filterMap (fun f => arrayContent f.2)).flatten) ++
        legacyBooks.filter (fun b =>
          !(((((partitionFiles fs).filterMap
              (fun f => arrayContent f.2)).flatten).map Book.id).contains b.id)) ++
        results.map (toBook cid fdate)) ∧
    ((saveCollectionResults parseDate (some fs) (some (.records legacyBooks))
        results cid fdate).mergedIndex.Pairwise
      (fun a b => saveKey parseDate b ≤ saveKey parseDate a)) ∧
    (saveCollectionResults parseDate (some fs) (some (.records legacyBooks))
        results cid fdate).partitionBooks = results.map (toBook cid fdate) := by
  refine ⟨?_, sortDesc_pairwise _ _, rfl⟩
  have h := sortDesc_perm (saveKey parseDate)
    (saveExistingBooks (some fs) (some (.records legacyBooks)) ++
      results.map (toBook cid fdate))
  simpa [saveCollectionResults, saveExistingBooks, List.append_assoc] using h

/-! ### C6 — loadAll merges partitions with first-occurrence-wins -/

/-- C6: when at least one partition file exists, `loadKnowledgeBooks` merges
exactly the readable partition arrays — corrupt, inaccessible and non-array
partitions are skipped without failing the load — deduplicating by id with
the first occurrence across files (in directory-listing order) winning,
returns the merge sorted by record date descending, and does not consult the
legacy file at all; only when no partition file exists does it fall back to
the legacy single file, returning its array, or `[]` when that file is
absent or unreadable. -/
theorem c6_load_merge (parseDate : String → Int)
    (files : List (String × FileContent)) (legacy : Option FileContent) :
    (partitionFiles files ≠ [] →
      (loadKnowledgeBooks parseDate files legacy).Perm
        (crossFileDedup []
          (((partitionFiles files).map (fun f => f.2)).filterMap arrayContent)) ∧
      (loadKnowledgeBooks parseDate files legacy).Pairwise
        (fun a b => loadKey parseDate b ≤ loadKey parseDate a) ∧
      (∀ legacy2, loadKnowledgeBooks parseDate files legacy2 =
        loadKnowledgeBooks parseDate files legacy)) ∧
    (partitionFiles files = [] →
      (∀ books, legacy = some (.records books) →
        loadKnowledgeBooks parseDate files legacy = books) ∧
      (legacy = none ∨ legacy = some .corrupt ∨ legacy = some .inaccessible →
        loadKnowledgeBooks parseDate files legacy = [])) := by
  constructor
  · intro hne
    refine ⟨?_, ?_, ?_⟩
    · simp only [loadKnowledgeBooks]
      rw [if_pos hne, loadLoop_eq_crossFileDedup]
      simp only [List.map_nil, List.nil_append]
      exact sortDesc_perm _ _
    · simp only [loadKnowledgeBooks]
      rw [if_pos hne]
      exact sortDesc_pairwise _ _
    · intro legacy2
      simp only [loadKnowledgeBooks]
      rw [if_pos hne, if_pos hne]
  · intro hnil
    constructor
    · intro books hl
      subst hl
      simp [loadKnowledgeBooks, hnil]
    · rintro (rfl | rfl | rfl) <;> simp [loadKnowledgeBooks, hnil]

/-- C6 witness: the concrete directory — a good partition, a corrupt one and
a later partition that reuses id `a` — loads to the first-wins merge of the
readable partitions sorted date-descending (`[bookB, bookA]`), and the
legacy file content does not influence the result. -/
theorem c6_load_merge_witness :
    (loadKnowledgeBooks c6ParseDate c6Files none).Perm
      (crossFileDedup []
        (((partitionFiles c6Files).map (fun f => f.2)).filterMap arrayContent)) ∧
    loadKnowledgeBooks c6ParseDate c6Files (some (.records [bookA2])) =
      loadKnowledgeBooks c6ParseDate c6Files none ∧
    loadKnowledgeBooks c6ParseDate c6Files none = [bookB, bookA] := by
  have h := (c6_load_merge c6ParseDate c6Files none).1 (by decide)
  exact ⟨h.1, h.2.2 (some (.records [bookA2])), by decide⟩

end Saphira
